import Mathlib

/-!
Verification of the Student Evaluation System frontend against its
specification.  The TypeScript sources are shallowly embedded: numeric
values (JavaScript numbers) are modelled as rationals `ℚ`, nullable
scores as `Option ℚ`, and JavaScript's coercion of `null` to `0` in
arithmetic contexts is made explicit with `Option.getD 0` at exactly the
places the source performs arithmetic on a possibly-null value.
-/

/-- JavaScript `Math.round`: round half towards positive infinity. -/
def jsRound (x : ℚ) : ℤ := ⌊x + 1/2⌋

/-- The `Math.round(x * 100) / 100` idiom used throughout the sources to
round to two decimal places. -/
def round2 (x : ℚ) : ℚ := jsRound (x * 100) / 100

/-! ## Mapping editor (`MappingEditor` component, WeightModal / handleDragEnd) -/

namespace MappingEditor

/-- `WeightModal`: `Math.round(Math.max(0, maxWeight - usedWeight) * 100) / 100`,
with `maxWeight` defaulting to `1` (the only value the editor passes). -/
def remainingWeight (usedWeight : ℚ) (maxWeight : ℚ := 1) : ℚ :=
  round2 (max 0 (maxWeight - usedWeight))

/-- `WeightModal`: `Math.round(remainingWeight / 0.05) * 0.05`, the upper
bound of the weight slider. -/
def maxSliderValue (usedWeight : ℚ) : ℚ :=
  jsRound (remainingWeight usedWeight / (5/100)) * (5/100)

/-- The Create Mapping button's `disabled={remainingWeight <= 0 || weight <= 0}`. -/
def createMappingDisabled (usedWeight weight : ℚ) : Bool :=
  decide (remainingWeight usedWeight ≤ 0) || decide (weight ≤ 0)

/-- The weights offered by the slider `min="0" max={maxSliderValue} step="0.05"`:
multiples of `0.05` between `0` and `maxSliderValue`. -/
def sliderSelectable (usedWeight weight : ℚ) : Prop :=
  (∃ k : ℕ, weight = (k : ℚ) * (5/100)) ∧ weight ≤ maxSliderValue usedWeight

end MappingEditor

namespace MappingEditor

/-- An entry of the `assessmentLOMappings` state.  The source stores either a
plain id or an embedded object in `learning_outcome`; every use compares the
learning-outcome id, so the edge is modelled by ids. -/
structure AssessmentLOMapping where
  id : ℕ
  assessment : ℕ
  learning_outcome : ℕ
  weight : ℚ
deriving DecidableEq

/-- An entry of the `loPOMappings` state, modelled by ids as above. -/
structure LOPOMapping where
  id : ℕ
  learning_outcome : ℕ
  program_outcome : ℕ
  weight : ℚ
deriving DecidableEq

/-- The fields of the `weightModal` state that `handleCreateMapping` uses. -/
structure WeightModalState where
  fromId : ℕ
  toId : ℕ
  usedWeight : ℚ
deriving DecidableEq

/-- `handleDragEnd`: the duplicate check
`assessmentLOMappings.some(m => m.assessment === assessmentId && … === loId)`. -/
def aloMappingExists (ms : List AssessmentLOMapping) (assessmentId loId : ℕ) : Bool :=
  ms.any (fun m => m.assessment == assessmentId && m.learning_outcome == loId)

/-- `handleDragEnd`: `filter(m => m.assessment === assessmentId).reduce((sum, m) => sum + m.weight, 0)`. -/
def usedWeightALO (ms : List AssessmentLOMapping) (assessmentId : ℕ) : ℚ :=
  ((ms.filter (fun m => m.assessment == assessmentId)).map (fun m => m.weight)).sum

/-- `handleDragEnd`, branch "Assessment dropped on LO": returns the weight
modal that is opened, or `none` when the mapping already exists. -/
def handleDropAssessmentOnLO (ms : List AssessmentLOMapping) (assessmentId loId : ℕ) :
    Option WeightModalState :=
  if aloMappingExists ms assessmentId loId then none
  else some ⟨assessmentId, loId, usedWeightALO ms assessmentId⟩

/-- `handleDragEnd`: the duplicate check for the LO→PO branch. -/
def lopoMappingExists (ms : List LOPOMapping) (loId poId : ℕ) : Bool :=
  ms.any (fun m => m.learning_outcome == loId && m.program_outcome == poId)

/-- `handleDragEnd`: used weight of a learning outcome over `loPOMappings`. -/
def usedWeightLOPO (ms : List LOPOMapping) (loId : ℕ) : ℚ :=
  ((ms.filter (fun m => m.learning_outcome == loId)).map (fun m => m.weight)).sum

/-- `handleDragEnd`, branch "LO dropped on PO". -/
def handleDropLOOnPO (ms : List LOPOMapping) (loId poId : ℕ) : Option WeightModalState :=
  if lopoMappingExists ms loId poId then none
  else some ⟨loId, poId, usedWeightLOPO ms loId⟩

/-- The outgoing-weight lists of one source node reachable in the mapping
editor: starting from `ws`, a `create` appends a weight chosen on the slider
with the Create Mapping button enabled (`handleCreateMapping` then appends the
new mapping to the state), and a `delete` removes a mapping
(`handleDeleteALOMapping` / `handleDeleteLOPOMapping`). -/
inductive AcceptedEdits : List ℚ → List ℚ → Prop
  | refl (ws : List ℚ) : AcceptedEdits ws ws
  | create (ws ws' : List ℚ) (w : ℚ) :
      AcceptedEdits ws ws' →
      sliderSelectable ws'.sum w →
      createMappingDisabled ws'.sum w = false →
      AcceptedEdits ws (ws' ++ [w])
  | delete (ws ws' : List ℚ) (w : ℚ) :
      AcceptedEdits ws ws' →
      AcceptedEdits ws (ws'.erase w)

/-- Distinct source/target pairs among Assessment→LO edges. -/
def ALONoDup (ms : List AssessmentLOMapping) : Prop :=
  ms.Pairwise fun m₁ m₂ =>
    ¬(m₁.assessment = m₂.assessment ∧ m₁.learning_outcome = m₂.learning_outcome)

/-- Distinct source/target pairs among LO→PO edges. -/
def LOPONoDup (ms : List LOPOMapping) : Prop :=
  ms.Pairwise fun m₁ m₂ =>
    ¬(m₁.learning_outcome = m₂.learning_outcome ∧ m₁.program_outcome = m₂.program_outcome)

/-- Assessment→LO mapping lists reachable in the editor: a mapping is created
only after `handleDragEnd` opened the modal (duplicate check passed) and
`handleCreateMapping` appended it; deletion filters by id. -/
inductive ALOReaches : List AssessmentLOMapping → List AssessmentLOMapping → Prop
  | refl (ms : List AssessmentLOMapping) : ALOReaches ms ms
  | create (ms ms' : List AssessmentLOMapping) (m : AssessmentLOMapping) :
      ALOReaches ms ms' →
      aloMappingExists ms' m.assessment m.learning_outcome = false →
      ALOReaches ms (ms' ++ [m])
  | delete (ms ms' : List AssessmentLOMapping) (mappingId : ℕ) :
      ALOReaches ms ms' →
      ALOReaches ms (ms'.filter fun m => m.id ≠ mappingId)

/-- LO→PO mapping lists reachable in the editor. -/
inductive LOPOReaches : List LOPOMapping → List LOPOMapping → Prop
  | refl (ms : List LOPOMapping) : LOPOReaches ms ms
  | create (ms ms' : List LOPOMapping) (m : LOPOMapping) :
      LOPOReaches ms ms' →
      lopoMappingExists ms' m.learning_outcome m.program_outcome = false →
      LOPOReaches ms (ms' ++ [m])
  | delete (ms ms' : List LOPOMapping) (mappingId : ℕ) :
      LOPOReaches ms ms' →
      LOPOReaches ms (ms'.filter fun m => m.id ≠ mappingId)

end MappingEditor

/-! ## Course detail page (`CourseDetail.tsx`) -/

namespace CourseDetail

/-- `handleUploadComplete`: the grade count interpolated into the success
message, `result.results?.created?.grades || 0 + result.results?.updated?.grades || 0`.
By JavaScript operator precedence this parses as
`created || ((0 + updated) || 0)`, not as `(created || 0) + (updated || 0)`. -/
def importedGradesCount (created updated : ℕ) : ℕ :=
  if created ≠ 0 then created
  else if 0 + updated ≠ 0 then 0 + updated
  else 0

/-- `getAverageScore`: the StudentOutcomeScore rows may carry a `null` score;
JavaScript's `sum + score.score` coerces `null` to `0`, and the division is by
the full row count. -/
def getAverageScore (loScores : List (Option ℚ)) : ℚ :=
  if loScores.length = 0 then 0
  else round2 ((loScores.map fun s => s.getD 0).sum / loScores.length)

/-- The record produced per learning outcome by `boxPlotData`. -/
structure BoxPlotEntry where
  min : ℚ
  q1 : ℚ
  median : ℚ
  q3 : ℚ
  max : ℚ
  mean : ℚ
deriving DecidableEq

/-- `getQuantile` from `boxPlotData`:
`pos = (arr.length - 1) * q; base = Math.floor(pos); rest = pos - base;`
returning `arr[base] + rest * (arr[base+1] - arr[base])` when `arr[base+1]`
is defined and `arr[base]` otherwise. -/
def getQuantile (arr : List ℚ) (q : ℚ) : ℚ :=
  let pos : ℚ := ((arr.length : ℚ) - 1) * q
  let base : ℕ := ⌊pos⌋.toNat
  let rest : ℚ := pos - base
  if base + 1 < arr.length then
    arr.getD base 0 + rest * (arr.getD (base + 1) 0 - arr.getD base 0)
  else
    arr.getD base 0

/-- `boxPlotData` for one learning outcome, applied to that LO's score column.
A `null` score stays in the array: the sort comparator `(a, b) => a - b` and
every later arithmetic use coerce it to `0`, so the numeric content is the
ascending sort of the scores with `null` as `0`.  An empty column yields the
all-zero record, as in the source. -/
def boxStats (scores : List (Option ℚ)) : BoxPlotEntry :=
  let arr := (scores.map fun s => s.getD 0).insertionSort (· ≤ ·)
  if arr.length = 0 then ⟨0, 0, 0, 0, 0, 0⟩
  else
    let n := arr.length
    ⟨round2 (arr.getD 0 0),
     round2 (getQuantile arr (25/100)),
     round2 (getQuantile arr (5/10)),
     round2 (getQuantile arr (75/100)),
     round2 (arr.getD (n - 1) 0),
     round2 (arr.sum / n)⟩

/-- `heatmapData`: the cell for one student and one LO code.  A present row
stores `Math.round(score.score * 100) / 100` (with `null * 100` coerced to
`0`); a missing row is filled with `0` by the
`loScores[code] ?? 0` step ("Fill missing scores with 0 for all LOs"). -/
def heatmapCellScore (rows : List (String × Option ℚ)) (code : String) : ℚ :=
  match rows.find? (fun r => r.1 == code) with
  | some r => round2 (r.2.getD 0)
  | none => 0

/-- Renders the `rgb(r, g, b)` string. -/
def rgbString (r g b : ℤ) : String :=
  "rgb(" ++ toString r ++ ", " ++ toString g ++ ", " ++ toString b ++ ")"

/-- `getHeatmapColor`: gray for a cell value of exactly `0`, otherwise a
red-to-green gradient over the value clamped to `[0, 100]`. -/
def getHeatmapColor (score : ℚ) : String :=
  if score = 0 then "rgb(249, 250, 251)"
  else
    let normalized := max 0 (min 100 score) / 100
    if normalized < 25/100 then
      let t := normalized / (25/100)
      rgbString (220 - jsRound (29 * t)) (38 + jsRound (64 * t)) (38 + jsRound (14 * t))
    else if normalized < 5/10 then
      let t := (normalized - 25/100) / (25/100)
      rgbString (191 + jsRound (64 * t)) (102 + jsRound (141 * t)) (52 + jsRound (187 * t))
    else if normalized < 75/100 then
      let t := (normalized - 5/10) / (25/100)
      rgbString (255 - jsRound (109 * t)) (243 + jsRound (12 * t)) (239 - jsRound (104 * t))
    else
      let t := (normalized - 75/100) / (25/100)
      rgbString (146 - jsRound (96 * t)) 255 (135 - jsRound (73 * t))

end CourseDetail

/-! ## Instructor dashboard (`Dashboard.tsx`) -/

namespace Dashboard

/-- `courseStatsQueries`: the course average over per-student
`weighted_average` rows — non-null rows only, `null` when there are none. -/
def courseAverage (rows : List (Option ℚ)) : Option ℚ :=
  let validAverages := rows.filterMap id
  if validAverages.length = 0 then none
  else some (validAverages.sum / validAverages.length)

end Dashboard

/-! ## Instructor courses page (`InstructorCourses.tsx`) -/

namespace InstructorCourses

inductive BadgeVariant
  | secondary
  | success
  | primary
  | warning
  | danger
deriving DecidableEq

/-- `getPerformanceBadge`, returning the badge variant and label. -/
def getPerformanceBadge (score : Option ℚ) : BadgeVariant × String :=
  match score with
  | none => (.secondary, "N/A")
  | some s =>
    if s ≥ 85 then (.success, "Excellent")
    else if s ≥ 70 then (.primary, "Good")
    else if s ≥ 60 then (.warning, "Average")
    else (.danger, "Needs Attention")

end InstructorCourses

/-! ## Student course detail page (`StudentCourseDetail`) -/

namespace StudentCourseDetail

/-- `scoreMultiplier`:
`loScores.length > 0 && loScores[0]?.score && loScores[0].score <= 1 ? 100 : 1`.
The truthiness test makes a first score of `null` — or of exactly `0` — fall
through to the multiplier `1`. -/
def scoreMultiplier (loScores : List (Option ℚ)) : ℚ :=
  match loScores.head? with
  | some (some s) => if s ≠ 0 ∧ s ≤ 1 then 100 else 1
  | _ => 1

/-- One bar of `barChartData`: `Math.round((s.score || 0) * scoreMultiplier)`. -/
def barChartValue (score : Option ℚ) (mult : ℚ) : ℤ :=
  jsRound (score.getD 0 * mult)

end StudentCourseDetail

/-! ## Student dashboard (`StudentDashboard.tsx`) -/

namespace StudentDashboard

/-- `avgLoScore` / `avgPoScore`: plain mean, `0` for an empty list. -/
def avgScore (scores : List ℚ) : ℚ :=
  if scores.length = 0 then 0 else scores.sum / scores.length

/-- `scoreMultiplier = avgLoScore > 1 || avgPoScore > 1 ? 1 : 100`. -/
def scoreMultiplier (avgLoScore avgPoScore : ℚ) : ℚ :=
  if 1 < avgLoScore ∨ 1 < avgPoScore then 1 else 100

/-- One radar-chart point: `Math.round(s.score * scoreMultiplier)`. -/
def poRadarValue (score : ℚ) (mult : ℚ) : ℤ :=
  jsRound (score * mult)

end StudentDashboard

/-! ## File upload modal (`FileUploadModal.tsx`) -/

namespace FileUploadModal

/-- The size warning `file.size > 10 * 1024 * 1024 && <p>⚠️ File exceeds 10 MB limit</p>`. -/
def showsSizeWarning (fileSize : ℕ) : Bool :=
  decide (10 * 1024 * 1024 < fileSize)

/-- The Validate File button's
`disabled={!file || validationMutation.isPending || (file && file.size > 10 * 1024 * 1024)}`. -/
def validateFileDisabled (hasFile : Bool) (fileSize : ℕ) (validationPending : Bool) : Bool :=
  !hasFile || validationPending || (hasFile && decide (10 * 1024 * 1024 < fileSize))

/-- The Upload & Import button's
`disabled={!file || uploadMutation.isPending || validationMutation.isPending || (file && file.size > 10 * 1024 * 1024)}`. -/
def uploadImportDisabled (hasFile : Bool) (fileSize : ℕ)
    (uploadPending validationPending : Bool) : Bool :=
  !hasFile || uploadPending || validationPending ||
    (hasFile && decide (10 * 1024 * 1024 < fileSize))

end FileUploadModal

/-! ## Helper lemmas -/

lemma jsRound_intCast (n : ℤ) : jsRound (n : ℚ) = n := by
  unfold jsRound
  rw [Int.floor_eq_iff]
  constructor <;> norm_num

namespace MappingEditor

lemma sum_nat_div20 (ws : List ℚ)
    (h : ∀ w ∈ ws, ∃ k : ℕ, 0 < k ∧ w = (k : ℚ) / 20) :
    ∃ m : ℕ, ws.sum = (m : ℚ) / 20 := by
  induction ws with
  | nil => exact ⟨0, by simp⟩
  | cons a l ih =>
    obtain ⟨k, -, hk⟩ := h a (by simp)
    obtain ⟨m, hm⟩ := ih fun w hw => h w (by simp [hw])
    exact ⟨k + m, by rw [List.sum_cons, hk, hm]; push_cast; ring⟩

lemma remainingWeight_div20 (m : ℕ) (hm : m ≤ 20) :
    remainingWeight ((m : ℚ) / 20) = (20 - (m : ℚ)) / 20 := by
  have hm' : (m : ℚ) ≤ 20 := by exact_mod_cast hm
  unfold remainingWeight round2
  rw [max_eq_right (by linarith)]
  have h2 : (1 - (m : ℚ) / 20) * 100 = ((100 - 5 * m : ℤ) : ℚ) := by push_cast; ring
  rw [h2, jsRound_intCast]
  push_cast
  ring

lemma maxSliderValue_div20 (m : ℕ) (hm : m ≤ 20) :
    maxSliderValue ((m : ℚ) / 20) = (20 - (m : ℚ)) / 20 := by
  unfold maxSliderValue
  rw [remainingWeight_div20 m hm]
  have h1 : (20 - (m : ℚ)) / 20 / (5 / 100) = ((20 - m : ℤ) : ℚ) := by push_cast; ring
  rw [h1, jsRound_intCast]
  push_cast
  ring

lemma sum_erase_le (l : List ℚ) (a : ℚ) (h : ∀ x ∈ l, 0 ≤ x) :
    (l.erase a).sum ≤ l.sum := by
  induction l with
  | nil => simp
  | cons b l ih =>
    rw [List.erase_cons]
    split
    · have hb : 0 ≤ b := h b (by simp)
      simp only [List.sum_cons]
      linarith
    · simp only [List.sum_cons]
      have := ih fun x hx => h x (by simp [hx])
      linarith

/-- Strengthened invariant for the weight-budget theorem: all outgoing weights
stay positive multiples of `0.05` and their sum stays at most `1`. -/
lemma acceptedEdits_invariant (ws ws' : List ℚ)
    (hr : AcceptedEdits ws ws')
    (h0 : (∀ w ∈ ws, ∃ k : ℕ, 0 < k ∧ w = (k : ℚ) / 20) ∧ ws.sum ≤ 1) :
    (∀ w ∈ ws', ∃ k : ℕ, 0 < k ∧ w = (k : ℚ) / 20) ∧ ws'.sum ≤ 1 := by
  induction hr with
  | refl => exact h0
  | create ws' w hreach hsel hdis ih =>
    obtain ⟨helem, hsum⟩ := ih
    obtain ⟨m, hm⟩ := sum_nat_div20 ws' helem
    have hm20 : m ≤ 20 := by
      have : (m : ℚ) ≤ 20 := by
        rw [hm] at hsum
        linarith
      exact_mod_cast this
    obtain ⟨⟨k, hk⟩, hle⟩ := hsel
    have hk' : w = (k : ℚ) / 20 := by rw [hk]; ring
    have hdis' : 0 < remainingWeight ws'.sum ∧ 0 < w := by
      simpa [createMappingDisabled] using hdis
    have hwpos : 0 < w := hdis'.2
    have hkpos : 0 < k := by
      by_contra hk0
      have : k = 0 := Nat.eq_zero_of_not_pos hk0
      rw [hk', this] at hwpos
      norm_num at hwpos
    have hkm : (k : ℚ) + m ≤ 20 := by
      rw [hm, maxSliderValue_div20 m hm20, hk'] at hle
      have : (k : ℚ) ≤ 20 - m := by linarith
      linarith
    refine ⟨?_, ?_⟩
    · intro x hx
      rcases List.mem_append.mp hx with hx | hx
      · exact helem x hx
      · have hxw : x = w := by simpa using hx
        exact ⟨k, hkpos, by rw [hxw, hk']⟩
    · rw [List.sum_append, List.sum_cons, List.sum_nil, hm, hk']
      linarith
  | delete ws' w hreach ih =>
    obtain ⟨helem, hsum⟩ := ih
    refine ⟨fun x hx => helem x (List.mem_of_mem_erase hx), ?_⟩
    have hnn : ∀ x ∈ ws', 0 ≤ x := by
      intro x hx
      obtain ⟨k, -, hk⟩ := helem x hx
      rw [hk]
      positivity
    exact le_trans (sum_erase_le ws' w hnn) hsum

end MappingEditor

namespace MappingEditor

lemma alo_noDup_preserved (ms ms' : List AssessmentLOMapping)
    (hr : ALOReaches ms ms') (h : ALONoDup ms) : ALONoDup ms' := by
  induction hr with
  | refl => exact h
  | create ms' m hr hnew ih =>
    unfold ALONoDup at ih ⊢
    rw [List.pairwise_append]
    refine ⟨ih, List.pairwise_singleton _ _, ?_⟩
    intro x hx y hy
    have hym : y = m := by simpa using hy
    subst hym
    simp only [aloMappingExists, List.any_eq_false, Bool.and_eq_true, beq_iff_eq,
      not_and] at hnew
    intro hcontra
    have := hnew x hx
    simp [hcontra.1, hcontra.2] at this
  | delete ms' mappingId hr ih =>
    exact List.Pairwise.sublist (List.filter_sublist _) ih

lemma lopo_noDup_preserved (ms ms' : List LOPOMapping)
    (hr : LOPOReaches ms ms') (h : LOPONoDup ms) : LOPONoDup ms' := by
  induction hr with
  | refl => exact h
  | create ms' m hr hnew ih =>
    unfold LOPONoDup at ih ⊢
    rw [List.pairwise_append]
    refine ⟨ih, List.pairwise_singleton _ _, ?_⟩
    intro x hx y hy
    have hym : y = m := by simpa using hy
    subst hym
    simp only [lopoMappingExists, List.any_eq_false, Bool.and_eq_true, beq_iff_eq,
      not_and] at hnew
    intro hcontra
    have := hnew x hx
    simp [hcontra.1, hcontra.2] at this
  | delete ms' mappingId hr ih =>
    exact List.Pairwise.sublist (List.filter_sublist _) ih

end MappingEditor

namespace StudentDashboard

lemma avgScore_le_one (xs : List ℚ) (h : ∀ a ∈ xs, a ≤ 1) : avgScore xs ≤ 1 := by
  unfold avgScore
  split
  · norm_num
  · rename_i hlen
    have hpos : 0 < (xs.length : ℚ) := by
      have := Nat.pos_of_ne_zero hlen
      exact_mod_cast this
    rw [div_le_one hpos]
    have := List.sum_le_card_nsmul xs 1 h
    simpa using this

end StudentDashboard

/-! ## Claims -/

/-- C1 (counterexample): with an existing outgoing weight of `0.37` (remaining
budget `0.63`), the slider's cap `maxSliderValue` is `0.65`, strictly above the
remaining budget; the weight `0.65` is selectable, the Create Mapping button is
enabled, and the accepted edit pushes the node's outgoing weight sum to
`1.02 > 1`. -/
theorem mappingEditor_budget_counterexample :
    MappingEditor.remainingWeight (37/100) = 63/100 ∧
    MappingEditor.remainingWeight (37/100) < MappingEditor.maxSliderValue (37/100) ∧
    MappingEditor.AcceptedEdits [37/100] ([37/100] ++ [13/20]) ∧
    1 < (([37/100] ++ [13/20] : List ℚ)).sum := by
  have hrem : MappingEditor.remainingWeight (37/100) = 63/100 := by
    norm_num [MappingEditor.remainingWeight, round2, jsRound]
  have hmax : MappingEditor.maxSliderValue (37/100) = 13/20 := by
    norm_num [MappingEditor.maxSliderValue, hrem, jsRound]
  refine ⟨hrem, by rw [hrem, hmax]; norm_num, ?_, by norm_num⟩
  refine MappingEditor.AcceptedEdits.create _ _ _ (.refl _) ⟨⟨13, by norm_num⟩, ?_⟩ ?_
  · simp only [List.sum_cons, List.sum_nil, add_zero]
    rw [hmax]
  · simp only [List.sum_cons, List.sum_nil, add_zero]
    norm_num [MappingEditor.createMappingDisabled, hrem]

/-- C1 (amended): the modal's slider is capped at the remaining budget rounded
to the nearest multiple of `0.05` (which can exceed the remaining budget), and
Create Mapping is disabled when the remaining budget is `≤ 0` or the weight is
`≤ 0`.  When every existing outgoing weight is a positive multiple of `0.05`
and the outgoing sum is at most `1` — as holds for any state built by the
editor itself — every sequence of accepted edits keeps the sum at most `1`. -/
theorem mappingEditor_weight_budget (ws ws' : List ℚ)
    (hmult : ∀ w ∈ ws, ∃ k : ℕ, 0 < k ∧ w = (k : ℚ) / 20)
    (hsum : ws.sum ≤ 1)
    (hreach : MappingEditor.AcceptedEdits ws ws') :
    ws'.sum ≤ 1 :=
  (MappingEditor.acceptedEdits_invariant ws ws' hreach ⟨hmult, hsum⟩).2

/-- Witness for `mappingEditor_weight_budget`: from the empty mapping state,
creating a mapping of weight `0.05` keeps the outgoing sum at most `1`. -/
theorem mappingEditor_weight_budget_witness :
    (([] : List ℚ) ++ [1/20]).sum ≤ 1 := by
  refine mappingEditor_weight_budget [] ([] ++ [1/20]) (by simp) (by simp) ?_
  refine MappingEditor.AcceptedEdits.create _ _ _ (.refl _) ⟨⟨1, by norm_num⟩, ?_⟩ ?_
  · have : MappingEditor.maxSliderValue (([] : List ℚ).sum) = 1 := by
      norm_num [MappingEditor.maxSliderValue, MappingEditor.remainingWeight, round2, jsRound]
    rw [this]
    norm_num
  · norm_num [MappingEditor.createMappingDisabled, MappingEditor.remainingWeight, round2,
      jsRound]

/-- C2: the instructor dashboard's course average does exclude null rows
(`validAverages`, `null` when all rows are null), but the course-detail page's
`getAverageScore` does not: a null StudentOutcomeScore row is coerced to `0`
and counted in the denominator, and an all-null list yields `0`, not null.
For rows `[0.8, null]` the code returns `0.4` where the claim requires `0.8`. -/
theorem courseDetail_average_counts_null_as_zero :
    CourseDetail.getAverageScore [some (4/5), none] = 2/5 ∧
    CourseDetail.getAverageScore [none] = 0 ∧
    Dashboard.courseAverage [some (4/5), none] = some (4/5) ∧
    Dashboard.courseAverage [none] = none := by
  refine ⟨?_, ?_, ?_, ?_⟩
  · norm_num [CourseDetail.getAverageScore, round2, jsRound]
  · norm_num [CourseDetail.getAverageScore, round2, jsRound]
  · have hfm : List.filterMap id [some ((4:ℚ)/5), none] = [4/5] := rfl
    norm_num [Dashboard.courseAverage, hfm]
  · have hfm : List.filterMap id ([none] : List (Option ℚ)) = [] := rfl
    norm_num [Dashboard.courseAverage, hfm]

/-- C3: the views collapse "no data" and an actual `0.0`.  In the course
heatmap a genuine score of `0` and a missing score both produce the cell value
`0`, which `getHeatmapColor` renders with the gray "no data" colour; in the
student course-detail bar chart a null score is rendered as the number `0`,
identical to a genuine `0`. -/
theorem heatmap_conflates_null_and_zero :
    CourseDetail.heatmapCellScore [("LO1", some 0)] "LO1" = 0 ∧
    CourseDetail.heatmapCellScore [("LO1", some 0)] "LO2" = 0 ∧
    CourseDetail.heatmapCellScore [("LO1", none)] "LO1" = 0 ∧
    CourseDetail.getHeatmapColor 0 = "rgb(249, 250, 251)" ∧
    StudentCourseDetail.barChartValue none 100 = 0 ∧
    StudentCourseDetail.barChartValue (some 0) 100 = 0 := by
  refine ⟨?_, ?_, ?_, ?_, ?_, ?_⟩
  · norm_num [CourseDetail.heatmapCellScore, List.find?, round2, jsRound]
  · have hne : (("LO1" : String) == "LO2") = false := by decide
    norm_num [CourseDetail.heatmapCellScore, List.find?, hne]
  · norm_num [CourseDetail.heatmapCellScore, List.find?, round2, jsRound]
  · simp [CourseDetail.getHeatmapColor]
  · norm_num [StudentCourseDetail.barChartValue, jsRound]
  · norm_num [StudentCourseDetail.barChartValue, jsRound]

/-- C4: `boxPlotData` does not exclude null scores: a null participates as `0`
in the sorted array, the quantiles, the mean and the minimum.  For the score
column `[1, null]` the code produces min `0`, median `0.5`, mean `0.5`,
whereas excluding the null (the same code on `[1]`) gives `1` throughout. -/
theorem boxPlot_counts_null_as_zero :
    CourseDetail.boxStats [some 1, none] = ⟨0, 1/4, 1/2, 3/4, 1, 1/2⟩ ∧
    CourseDetail.boxStats [some 1] = ⟨1, 1, 1, 1, 1, 1⟩ ∧
    CourseDetail.boxStats [some 1, none] ≠ CourseDetail.boxStats [some 1] := by
  have h1 : CourseDetail.boxStats [some 1, none] = ⟨0, 1/4, 1/2, 3/4, 1, 1/2⟩ := by
    have harr : (([some (1:ℚ), none].map fun s => s.getD 0).insertionSort (· ≤ ·)) = [0, 1] := by
      norm_num [List.insertionSort, List.orderedInsert]
    simp only [CourseDetail.boxStats, harr]
    norm_num [CourseDetail.getQuantile, List.getD, round2, jsRound]
  have h2 : CourseDetail.boxStats [some 1] = ⟨1, 1, 1, 1, 1, 1⟩ := by
    have harr : (([some (1:ℚ)].map fun s => s.getD 0).insertionSort (· ≤ ·)) = [1] := by
      norm_num [List.insertionSort, List.orderedInsert]
    simp only [CourseDetail.boxStats, harr]
    norm_num [CourseDetail.getQuantile, List.getD, round2, jsRound]
  refine ⟨h1, h2, ?_⟩
  rw [h1, h2]
  intro hcontra
  have := congrArg CourseDetail.BoxPlotEntry.min hcontra
  norm_num at this

/-- C5: `getPerformanceBadge` returns the danger "Needs Attention" badge
exactly for a non-null score strictly below `60`, and the label `N/A` with a
non-danger variant for a null score. -/
theorem performanceBadge_danger_iff_below_60 (score : Option ℚ) :
    ((InstructorCourses.getPerformanceBadge score).1 =
        InstructorCourses.BadgeVariant.danger ↔ ∃ s, score = some s ∧ s < 60) ∧
    InstructorCourses.getPerformanceBadge none =
      (InstructorCourses.BadgeVariant.secondary, "N/A") := by
  refine ⟨?_, rfl⟩
  rcases score with - | s
  · simp [InstructorCourses.getPerformanceBadge]
  · have hbadge : (InstructorCourses.getPerformanceBadge (some s)).1 =
        InstructorCourses.BadgeVariant.danger ↔ s < 60 := by
      simp only [InstructorCourses.getPerformanceBadge]
      split_ifs with h85 h70 h60
      · exact ⟨fun h => absurd h (by decide), fun h => absurd h (by linarith)⟩
      · exact ⟨fun h => absurd h (by decide), fun h => absurd h (by linarith)⟩
      · exact ⟨fun h => absurd h (by decide), fun h => absurd h (by linarith)⟩
      · exact ⟨fun _ => not_le.mp h60, fun _ => rfl⟩
    rw [hbadge]
    simp

/-- C6: the Create Mapping button is disabled whenever the chosen weight is
`≤ 0`, so a mapping accepted by the modal always has weight strictly greater
than `0`. -/
theorem createMapping_rejects_nonpositive_weight (usedWeight weight : ℚ) :
    (weight ≤ 0 → MappingEditor.createMappingDisabled usedWeight weight = true) ∧
    (MappingEditor.createMappingDisabled usedWeight weight = false → 0 < weight) := by
  constructor
  · intro h
    simp [MappingEditor.createMappingDisabled, h]
  · intro h
    have h' : 0 < MappingEditor.remainingWeight usedWeight ∧ 0 < weight := by
      simpa [MappingEditor.createMappingDisabled] using h
    exact h'.2

/-- Witness for `createMapping_rejects_nonpositive_weight` at weight `0`. -/
theorem createMapping_rejects_nonpositive_weight_witness :
    MappingEditor.createMappingDisabled (1/2) 0 = true :=
  (createMapping_rejects_nonpositive_weight (1/2) 0).1 le_rfl

/-- C7: by JavaScript operator precedence the success message of
`handleUploadComplete` reports `created || (updated || 0)` grades instead of
`created + updated`: with `2` created and `3` updated it reports `2`, not `5`
(the fallback to `updated` fires only when `created = 0`). -/
theorem importedGradesCount_misreports_sum :
    CourseDetail.importedGradesCount 2 3 = 2 ∧
    CourseDetail.importedGradesCount 2 3 ≠ 2 + 3 ∧
    CourseDetail.importedGradesCount 0 3 = 3 := by decide

/-- C8 (counterexample): with the ratio-valued score list `[0, 0.8]` — all
values in `[0, 1]` — the student course-detail multiplier is `1` because the
first score `0` is falsy, so `0.8` is rendered as `1` instead of `80`. -/
theorem scoreMultiplier_zero_head_counterexample :
    StudentCourseDetail.scoreMultiplier [some 0, some (4/5)] = 1 ∧
    StudentCourseDetail.barChartValue (some (4/5))
      (StudentCourseDetail.scoreMultiplier [some 0, some (4/5)]) = 1 ∧
    jsRound ((4/5) * 100) = 80 ∧
    StudentCourseDetail.barChartValue (some (4/5))
        (StudentCourseDetail.scoreMultiplier [some 0, some (4/5)]) ≠
      jsRound ((4/5) * 100) := by
  have h : StudentCourseDetail.scoreMultiplier [some 0, some (4/5)] = 1 := by
    simp [StudentCourseDetail.scoreMultiplier]
  have hbar : StudentCourseDetail.barChartValue (some (4/5))
      (StudentCourseDetail.scoreMultiplier [some 0, some (4/5)]) = 1 := by
    rw [h]
    norm_num [StudentCourseDetail.barChartValue, jsRound]
  have h80 : jsRound ((4/5 : ℚ) * 100) = 80 := by norm_num [jsRound]
  exact ⟨h, hbar, h80, by rw [hbar, h80]; decide⟩

/-- C8 (amended): the student dashboard applies the `×100` multiplier to every
ratio-valued score list, and the student course-detail page does so provided
the first score is non-null and non-zero; each displayed value is then
`Math.round(score * 100)`. -/
theorem scoreMultiplier_applied_to_ratio_scores (lo po : List ℚ)
    (ls : List (Option ℚ)) (x : ℚ)
    (hlo : ∀ a ∈ lo, a ≤ 1) (hpo : ∀ a ∈ po, a ≤ 1)
    (hhead : ls.head? = some (some x)) (hx0 : x ≠ 0) (hx1 : x ≤ 1) :
    StudentDashboard.scoreMultiplier (StudentDashboard.avgScore lo)
        (StudentDashboard.avgScore po) = 100 ∧
    StudentCourseDetail.scoreMultiplier ls = 100 ∧
    (∀ s : ℚ, StudentCourseDetail.barChartValue (some s) 100 = jsRound (s * 100)) ∧
    (∀ s : ℚ, StudentDashboard.poRadarValue s 100 = jsRound (s * 100)) := by
  refine ⟨?_, ?_, fun s => rfl, fun s => rfl⟩
  · unfold StudentDashboard.scoreMultiplier
    rw [if_neg]
    push_neg
    exact ⟨StudentDashboard.avgScore_le_one lo hlo, StudentDashboard.avgScore_le_one po hpo⟩
  · cases ls with
    | nil => simp at hhead
    | cons hd tl =>
      simp only [List.head?_cons, Option.some.injEq] at hhead
      subst hhead
      simp only [StudentCourseDetail.scoreMultiplier, List.head?_cons]
      exact if_pos ⟨hx0, hx1⟩

/-- Witness for `scoreMultiplier_applied_to_ratio_scores` on the score lists
`[1]`, `[]` and `[some 1]`. -/
theorem scoreMultiplier_applied_to_ratio_scores_witness :
    StudentDashboard.scoreMultiplier (StudentDashboard.avgScore [1])
        (StudentDashboard.avgScore []) = 100 ∧
    StudentCourseDetail.scoreMultiplier [some 1] = 100 := by
  have h := scoreMultiplier_applied_to_ratio_scores [1] [] [some 1] 1
    (by simp) (by simp) rfl one_ne_zero le_rfl
  exact ⟨h.1, h.2.1⟩

/-- C9: dropping a node on a target it is already mapped to opens no weight
modal (so no mapping is created), for both Assessment→LO and LO→PO edges; as
a consequence the mapping lists reachable in the editor never contain two
edges with the same source and target. -/
theorem mapping_pairs_unique (alo alo' : List MappingEditor.AssessmentLOMapping)
    (lop lop' : List MappingEditor.LOPOMapping) (a l p : ℕ) :
    (MappingEditor.aloMappingExists alo a l = true →
      MappingEditor.handleDropAssessmentOnLO alo a l = none) ∧
    (MappingEditor.lopoMappingExists lop l p = true →
      MappingEditor.handleDropLOOnPO lop l p = none) ∧
    (MappingEditor.ALONoDup alo → MappingEditor.ALOReaches alo alo' →
      MappingEditor.ALONoDup alo') ∧
    (MappingEditor.LOPONoDup lop → MappingEditor.LOPOReaches lop lop' →
      MappingEditor.LOPONoDup lop') := by
  refine ⟨?_, ?_, fun h hr => MappingEditor.alo_noDup_preserved _ _ hr h,
    fun h hr => MappingEditor.lopo_noDup_preserved _ _ hr h⟩
  · intro h
    simp [MappingEditor.handleDropAssessmentOnLO, h]
  · intro h
    simp [MappingEditor.handleDropLOOnPO, h]

/-- Witness for `mapping_pairs_unique` on one-element mapping states. -/
theorem mapping_pairs_unique_witness :
    MappingEditor.handleDropAssessmentOnLO [⟨1, 1, 2, 1/2⟩] 1 2 = none ∧
    MappingEditor.handleDropLOOnPO [⟨1, 2, 3, 1/2⟩] 2 3 = none ∧
    MappingEditor.ALONoDup [⟨1, 1, 2, 1/2⟩] := by
  have h := mapping_pairs_unique [⟨1, 1, 2, 1/2⟩] [⟨1, 1, 2, 1/2⟩]
    [⟨1, 2, 3, 1/2⟩] [⟨1, 2, 3, 1/2⟩] 1 2 3
  exact ⟨h.1 (by decide), h.2.1 (by decide),
    h.2.2.1 (by simp [MappingEditor.ALONoDup]) (.refl _)⟩

/-- C10: for a selected file larger than `10 * 1024 * 1024` bytes the upload
modal shows the size warning and disables both the Validate File and the
Upload & Import buttons, whatever the pending states. -/
theorem oversizedFile_blocked (fileSize : ℕ) (uploadPending validationPending : Bool)
    (hsize : 10 * 1024 * 1024 < fileSize) :
    FileUploadModal.showsSizeWarning fileSize = true ∧
    FileUploadModal.validateFileDisabled true fileSize validationPending = true ∧
    FileUploadModal.uploadImportDisabled true fileSize uploadPending validationPending
      = true := by
  refine ⟨?_, ?_, ?_⟩ <;>
    simp [FileUploadModal.showsSizeWarning, FileUploadModal.validateFileDisabled,
      FileUploadModal.uploadImportDisabled, hsize]

/-- Witness for `oversizedFile_blocked` one byte over the limit. -/
theorem oversizedFile_blocked_witness :
    FileUploadModal.showsSizeWarning (10 * 1024 * 1024 + 1) = true ∧
    FileUploadModal.validateFileDisabled true (10 * 1024 * 1024 + 1) false = true ∧
    FileUploadModal.uploadImportDisabled true (10 * 1024 * 1024 + 1) false false = true :=
  oversizedFile_blocked (10 * 1024 * 1024 + 1) false false (by decide)
